import Mathlib

/-!
# Verification of the hf-ntc-thermistor-driver core

A shallow embedding of the NTC thermistor driver's core algorithms:

* the lookup-table engine (`NtcLookupTable.cpp`): table validation, binary
  search, linear interpolation — modelled over `ℚ` (the table data are exact
  decimal fractions, and every arithmetic operation performed by the engine is
  field arithmetic and comparison);
* the conversion functions (`NtcConversion.cpp`): the voltage-divider solve
  over `ℚ`, and the Beta / Steinhart-Hart conversions over `ℝ` (they use the
  real logarithm and exponential);
* the driver reading pipeline (`NtcThermistor.cpp`): explicit state passing
  for the configuration, the filter state and the calibration offset.

C++ `size_t` arithmetic inside the binary search is modelled exactly as
unsigned 64-bit arithmetic (`% 2 ^ 64`), because the search decrements an
unsigned index that can be zero.  An out-of-bounds array access, which is
undefined behaviour in the C++ source, is modelled as an explicit `oobRead`
outcome.
-/

namespace NTC

/-- One `(resistance, temperature)` pair of a lookup table
(`ntc_lookup_entry_t` in `NtcTypes.h`). -/
structure ntc_lookup_entry_t where
  resistance_ohms : ℚ
  temperature_celsius : ℚ
deriving DecidableEq

/-- A lookup table (`ntc_lookup_table_t`).  The C struct stores a pointer and
a separate `entry_count`; the embedding stores the entries as a list, with
`entry_count` equal to the list length (true of every table the source
constructs). -/
structure ntc_lookup_table_t where
  entries : List ntc_lookup_entry_t
  min_resistance : ℚ
  max_resistance : ℚ
  min_temperature : ℚ
  max_temperature : ℚ
  resistance_step : ℚ
deriving DecidableEq

/-- `table->entry_count`. -/
def ntc_lookup_table_t.entry_count (t : ntc_lookup_table_t) : Nat :=
  t.entries.length

/-- The descending-resistance check of `ValidateLookupTable`:
`entries[i].resistance_ohms < entries[i-1].resistance_ohms` for all `i ≥ 1`. -/
def sortedDescendingByResistance : List ntc_lookup_entry_t → Bool
  | [] => true
  | [_] => true
  | a :: b :: rest =>
      decide (b.resistance_ohms < a.resistance_ohms) &&
        sortedDescendingByResistance (b :: rest)

/-- `ValidateLookupTable` (`NtcLookupTable.cpp`): non-null entries (always
true in the embedding), at least 2 entries, strictly decreasing resistance. -/
def ValidateLookupTable (table : ntc_lookup_table_t) : Bool :=
  decide (2 ≤ table.entry_count) && sortedDescendingByResistance table.entries

/-- `InterpolateLookupEntries` (`NtcLookupTable.cpp`): linear interpolation
between two entries by resistance, returning `entry1`'s temperature when the
resistance difference is within `1e-6`. -/
def InterpolateLookupEntries (entry1 entry2 : ntc_lookup_entry_t)
    (resistance_ohms : ℚ) : ℚ :=
  let resistance_diff := entry2.resistance_ohms - entry1.resistance_ohms
  if |resistance_diff| < 1/1000000 then
    entry1.temperature_celsius
  else
    let ratio := (resistance_ohms - entry1.resistance_ohms) / resistance_diff
    entry1.temperature_celsius +
      ratio * (entry2.temperature_celsius - entry1.temperature_celsius)

/-- Outcome of the binary-search loop.  `found` carries the
`(lower_index, upper_index)` pair written through the out parameters;
`oobRead` marks an access `entries[mid]` with `mid ≥ entry_count`, which is
undefined behaviour in the C++ source. -/
inductive BinarySearchOutcome where
  | found (lower_index upper_index : Nat)
  | oobRead
  | outOfFuel
deriving DecidableEq

/-- Unsigned 64-bit decrement: `n - 1` on `size_t` (wraps at zero). -/
def sub1u64 (n : Nat) : Nat :=
  (n + (2 ^ 64 - 1)) % 2 ^ 64

/-- The `while (left <= right)` loop of `BinarySearchLookupTable`, followed by
the clamping of the terminated cursors.  `left` and `right` are `size_t`
values; `right = mid - 1` is 64-bit unsigned arithmetic.  `fuel` dominates the
loop's iteration count (the interval shrinks every iteration until the loop
returns or the unsigned wrap makes the very next access out of bounds). -/
def binarySearchLoop (entries : List ntc_lookup_entry_t) (resistance_ohms : ℚ) :
    Nat → Nat → Nat → BinarySearchOutcome
  | 0, _, _ => .outOfFuel
  | fuel + 1, left, right =>
      if left ≤ right then
        let mid := left + (right - left) / 2
        match entries.get? mid with
        | none => .oobRead
        | some entry =>
            let mid_resistance := entry.resistance_ohms
            if |mid_resistance - resistance_ohms| < 1/1000000 then
              .found mid mid
            else if mid_resistance < resistance_ohms then
              binarySearchLoop entries resistance_ohms fuel (mid + 1) right
            else
              binarySearchLoop entries resistance_ohms fuel left (sub1u64 mid)
      else
        if right ≥ entries.length - 1 then
          .found (entries.length - 2) (entries.length - 1)
        else if left = 0 then
          .found 0 1
        else
          .found right left

/-- `BinarySearchLookupTable` (`NtcLookupTable.cpp`): rejects tables with
fewer than 2 entries, otherwise runs the search loop from
`left = 0, right = entry_count - 1`.  `none` is the `return false` path. -/
def BinarySearchLookupTable (table : ntc_lookup_table_t)
    (resistance_ohms : ℚ) : Option BinarySearchOutcome :=
  if table.entry_count < 2 then
    none
  else
    some (binarySearchLoop table.entries resistance_ohms
      (table.entry_count + 66) 0 (table.entry_count - 1))

/-- Result of `FindTemperatureFromLookupTable`: `fail` is `return false`,
`ok` carries the written temperature, `oobRead` / `outOfFuel` propagate the
loop outcomes (`oobRead` is the C++ undefined behaviour). -/
inductive FindResult where
  | fail
  | ok (temperature_celsius : ℚ)
  | oobRead
  | outOfFuel
deriving DecidableEq, Repr

/-- `FindTemperatureFromLookupTable` (`NtcLookupTable.cpp`): validate the
table, range-check the resistance against `[min_resistance, max_resistance]`,
binary-search for the index pair, then interpolate between the two entries. -/
def FindTemperatureFromLookupTable (table : ntc_lookup_table_t)
    (resistance_ohms : ℚ) : FindResult :=
  if ¬ ValidateLookupTable table then
    .fail
  else if resistance_ohms < table.min_resistance ∨
      table.max_resistance < resistance_ohms then
    .fail
  else
    match BinarySearchLookupTable table resistance_ohms with
    | none => .fail
    | some .oobRead => .oobRead
    | some .outOfFuel => .outOfFuel
    | some (.found lower_index upper_index) =>
        match table.entries.get? lower_index, table.entries.get? upper_index with
        | some entry1, some entry2 =>
            .ok (InterpolateLookupEntries entry1 entry2 resistance_ohms)
        | _, _ => .oobRead

end NTC

namespace NTC

/-- The raw data of `NTCG163JFT103FT1S_TABLE` (`NtcLookupTable.cpp`), given
in tenths: the source lists 166 pre-calculated pairs, each with exactly one
decimal digit, so `(3367, -400)` stands for `{336.7F, -40.0F}`. -/
def NTCG163JFT103FT1S_TABLE_TENTHS : List (Int × Int) := [
  (3367, -400), (3121, -390), (2892, -380), (2679, -370), (2481, -360),
  (2298, -350), (2128, -340), (1971, -330), (1826, -320), (1692, -310),
  (1568, -300), (1454, -290), (1349, -280), (1252, -270), (1162, -260),
  (1079, -250), (1002, -240), (931, -230), (865, -220), (804, -210), (748,
  -200), (696, -190), (648, -180), (604, -170), (563, -160), (526, -150),
  (491, -140), (459, -130), (430, -120), (403, -110), (378, -100), (355,
  -90), (334, -80), (314, -70), (296, -60), (279, -50), (263, -40), (248,
  -30), (234, -20), (221, -10), (209, 0), (198, 10), (187, 20), (177, 30),
  (168, 40), (159, 50), (151, 60), (143, 70), (136, 80), (129, 90), (123,
  100), (117, 110), (111, 120), (106, 130), (101, 140), (96, 150), (92,
  160), (88, 170), (84, 180), (80, 190), (77, 200), (74, 210), (71, 220),
  (68, 230), (65, 240), (63, 250), (60, 260), (58, 270), (56, 280), (54,
  290), (52, 300), (50, 310), (48, 320), (46, 330), (44, 340), (43, 350),
  (41, 360), (40, 370), (38, 380), (37, 390), (36, 400), (34, 410), (33,
  420), (32, 430), (31, 440), (30, 450), (29, 460), (28, 470), (27, 480),
  (26, 490), (25, 500), (24, 510), (23, 520), (22, 530), (21, 540), (20,
  550), (19, 560), (18, 570), (17, 580), (16, 590), (15, 600), (14, 610),
  (13, 620), (12, 630), (11, 640), (10, 650), (9, 660), (8, 670), (7,
  680), (6, 690), (5, 700), (4, 710), (3, 720), (2, 730), (1, 740), (0,
  750), (-1, 760), (-2, 770), (-3, 780), (-4, 790), (-5, 800), (-6, 810),
  (-7, 820), (-8, 830), (-9, 840), (-10, 850), (-11, 860), (-12, 870),
  (-13, 880), (-14, 890), (-15, 900), (-16, 910), (-17, 920), (-18, 930),
  (-19, 940), (-20, 950), (-21, 960), (-22, 970), (-23, 980), (-24, 990),
  (-25, 1000), (-26, 1010), (-27, 1020), (-28, 1030), (-29, 1040), (-30,
  1050), (-31, 1060), (-32, 1070), (-33, 1080), (-34, 1090), (-35, 1100),
  (-36, 1110), (-37, 1120), (-38, 1130), (-39, 1140), (-40, 1150), (-41,
  1160), (-42, 1170), (-43, 1180), (-44, 1190), (-45, 1200), (-46, 1210),
  (-47, 1220), (-48, 1230), (-49, 1240), (-50, 1250)]

/-- The `NTCG163JFT103FT1S_TABLE` entries: 166 pre-calculated
`(resistance, temperature)` pairs, −40 °C to +125 °C. -/
def NTCG163JFT103FT1S_TABLE : List ntc_lookup_entry_t :=
  NTCG163JFT103FT1S_TABLE_TENTHS.map fun p =>
    ⟨(p.1 : ℚ) / 10, (p.2 : ℚ) / 10⟩

/-- `NTCG163JFT103FT1S_LOOKUP_TABLE` (`NtcLookupTable.cpp`), the same value
the source also aliases for `NTCG164JF103FT1S` and `NTCG163JF103FT1S`:
`min_resistance` is left at `0.0` (the source comment says "Will be
calculated" but nothing ever calculates it). -/
def NTCG163JFT103FT1S_LOOKUP_TABLE : ntc_lookup_table_t :=
  { entries := NTCG163JFT103FT1S_TABLE
    min_resistance := 0.0
    max_resistance := 336.7
    min_temperature := -40.0
    max_temperature := 125.0
    resistance_step := 1.0 }

/-- `GetNtcLookupTable` (`NtcLookupTable.cpp`): thermistor types 1, 2 and 3
all resolve to the shared static table; every other type yields no table. -/
def GetNtcLookupTable (ntc_type : Nat) : Option ntc_lookup_table_t :=
  if ntc_type = 1 ∨ ntc_type = 2 ∨ ntc_type = 3 then
    some NTCG163JFT103FT1S_LOOKUP_TABLE
  else
    none

end NTC


namespace NTC

/-! ## Constants (`NtcConversion.h`, namespace `NTC::Constants`) -/

def kMinResistanceOhms : ℚ := 0.1

def kMaxResistanceOhms : ℚ := 1000000

def kMinTemperatureCelsius : ℚ := -273.15

def kMaxTemperatureCelsius : ℚ := 1000

def kMinBetaValue : ℚ := 1000

def kMaxBetaValue : ℚ := 5000

def kEpsilonFloat : ℚ := 1/1000000

def kKelvinOffset : ℚ := 273.15

def kReferenceTemperatureC : ℚ := 25

/-! ## Validation functions (`NtcConversion.cpp`)

The source validators are pure range predicates on `float`.  They are embedded
at the scalar type of each caller: the voltage-divider path is exact decimal
arithmetic (`ℚ`), the logarithmic conversions live over `ℝ`. -/

/-- `ValidateVoltage` (on the exact/rational side). -/
def ValidateVoltage (voltage_volts min_voltage max_voltage : ℚ) : Prop :=
  min_voltage ≤ voltage_volts ∧ voltage_volts ≤ max_voltage

instance (v mn mx : ℚ) : Decidable (ValidateVoltage v mn mx) :=
  decidable_of_iff (mn ≤ v ∧ v ≤ mx) Iff.rfl

/-- `ValidateResistance` (on the real side). -/
def ValidateResistance (resistance_ohms min_resistance max_resistance : ℝ) :
    Prop :=
  min_resistance ≤ resistance_ohms ∧ resistance_ohms ≤ max_resistance

/-- `ValidateTemperature` (on the real side). -/
def ValidateTemperature (temperature_celsius min_temperature max_temperature :
    ℝ) : Prop :=
  min_temperature ≤ temperature_celsius ∧
    temperature_celsius ≤ max_temperature

/-- `ValidateBetaValue`: bounds `[1000, 5000]` K. -/
def ValidateBetaValue (beta_value : ℝ) : Prop :=
  (kMinBetaValue : ℝ) ≤ beta_value ∧ beta_value ≤ (kMaxBetaValue : ℝ)

/-- `ValidateSteinhartHartCoefficients`: the fixed empirical bounds
`A ∈ [−1e-2, 1e-2]`, `B ∈ [1e-4, 1e-3]`, `C ∈ [−1e-7, 1e-7]`. -/
def ValidateSteinhartHartCoefficients (coeff_a coeff_b coeff_c : ℝ) : Prop :=
  -1/100 ≤ coeff_a ∧ coeff_a ≤ 1/100 ∧
    1/10000 ≤ coeff_b ∧ coeff_b ≤ 1/1000 ∧
    -1/10000000 ≤ coeff_c ∧ coeff_c ≤ 1/10000000

/-! ## Voltage-divider math (`NtcConversion.cpp`) -/

/-- `CalculateThermistorResistance`: solves
`R = R_series · (V_th / (V_ref − V_th))`, failing on `V_th ∉ [0, V_ref]`,
non-positive `V_ref` or `R_series`, or `|V_ref − V_th| < 1e-6`. -/
def CalculateThermistorResistance
    (voltage_thermistor reference_voltage series_resistance : ℚ) :
    Option ℚ :=
  if ¬ ValidateVoltage voltage_thermistor 0 reference_voltage then
    none
  else if reference_voltage ≤ 0 ∨ series_resistance ≤ 0 then
    none
  else
    let voltage_diff := reference_voltage - voltage_thermistor
    if |voltage_diff| < kEpsilonFloat then
      none
    else
      some (series_resistance * (voltage_thermistor / voltage_diff))

/-! ## Analytical conversions (`NtcConversion.cpp`), over `ℝ` -/

open Classical in
/-- `ConvertResistanceToTemperatureBeta`:
`1/T = 1/T₀ + ln(R/R₀)/β` with `T₀ = 298.15 K`; fails on validation failure
or a non-positive `1/T`. -/
noncomputable def ConvertResistanceToTemperatureBeta
    (resistance_ohms resistance_at_25c beta_value : ℝ) : Option ℝ :=
  if ¬ ValidateResistance resistance_ohms (kMinResistanceOhms : ℝ)
      (kMaxResistanceOhms : ℝ) then
    none
  else if ¬ ValidateBetaValue beta_value then
    none
  else if resistance_at_25c ≤ 0 then
    none
  else
    let temp_reference_kelvin : ℝ :=
      (kReferenceTemperatureC : ℝ) + (kKelvinOffset : ℝ)
    let ln_ratio := Real.log (resistance_ohms / resistance_at_25c)
    let inv_temperature := 1 / temp_reference_kelvin + ln_ratio / beta_value
    if inv_temperature ≤ 0 then
      none
    else
      some (1 / inv_temperature - (kKelvinOffset : ℝ))

open Classical in
/-- `ConvertResistanceToTemperatureSteinhartHart`:
`1/T = A + B·ln R + C·(ln R)³`; fails on validation failure or a
non-positive `1/T`. -/
noncomputable def ConvertResistanceToTemperatureSteinhartHart
    (resistance_ohms coeff_a coeff_b coeff_c : ℝ) : Option ℝ :=
  if ¬ ValidateResistance resistance_ohms (kMinResistanceOhms : ℝ)
      (kMaxResistanceOhms : ℝ) then
    none
  else if ¬ ValidateSteinhartHartCoefficients coeff_a coeff_b coeff_c then
    none
  else
    let ln_R := Real.log resistance_ohms
    let ln_R_cubed := ln_R * ln_R * ln_R
    let inv_temperature := coeff_a + coeff_b * ln_R + coeff_c * ln_R_cubed
    if inv_temperature ≤ 0 then
      none
    else
      some (1 / inv_temperature - (kKelvinOffset : ℝ))

open Classical in
/-- `ConvertTemperatureToResistanceSteinhartHart`: the documented
approximation `ln R ≈ (1/T − A)/B` (the cubic `C` term dropped), rejected
when `|ln R| ≥ 20`; the result is `exp(ln R)`. -/
noncomputable def ConvertTemperatureToResistanceSteinhartHart
    (temperature_celsius coeff_a coeff_b coeff_c : ℝ) : Option ℝ :=
  if ¬ ValidateTemperature temperature_celsius (kMinTemperatureCelsius : ℝ)
      (kMaxTemperatureCelsius : ℝ) then
    none
  else if ¬ ValidateSteinhartHartCoefficients coeff_a coeff_b coeff_c then
    none
  else
    let temp_kelvin := temperature_celsius + (kKelvinOffset : ℝ)
    if temp_kelvin ≤ 0 then
      none
    else
      let ln_R_approx := (1 / temp_kelvin - coeff_a) / coeff_b
      if ln_R_approx ≤ -20 ∨ 20 ≤ ln_R_approx then
        none
      else
        some (Real.exp ln_R_approx)

end NTC

namespace NTC

/-! ## Driver embedding (`NtcThermistor.cpp`)

The driver is a class with mutable members `config_`, `initialized_`,
`filtered_temperature_` and `filter_initialized_`; the embedding passes this
state explicitly.  The injected ADC capability is modelled as a function from
the per-read sample index to the outcome of `ReadChannelV` (`Except.error e`
for a non-`SUCCESS` `AdcError`, `Except.ok v` for a successful read of
voltage `v`); a deterministic mock ADC is a constant function. -/

/-- `ntc_err_t` (`NtcTypes.h`). -/
inductive ntc_err_t where
  | NTC_SUCCESS
  | NTC_ERR_FAILURE
  | NTC_ERR_NOT_INITIALIZED
  | NTC_ERR_ALREADY_INITIALIZED
  | NTC_ERR_INVALID_PARAMETER
  | NTC_ERR_NULL_POINTER
  | NTC_ERR_OUT_OF_MEMORY
  | NTC_ERR_ADC_READ_FAILED
  | NTC_ERR_INVALID_RESISTANCE
  | NTC_ERR_TEMPERATURE_OUT_OF_RANGE
  | NTC_ERR_LOOKUP_TABLE_ERROR
  | NTC_ERR_CONVERSION_FAILED
  | NTC_ERR_CALIBRATION_FAILED
  | NTC_ERR_UNSUPPORTED_OPERATION
  | NTC_ERR_TIMEOUT
  | NTC_ERR_HARDWARE_FAULT
deriving DecidableEq

/-- `NTC::AdcError` (`NtcAdcInterface.h`), the non-success outcomes. -/
inductive AdcError where
  | NOT_INITIALIZED
  | INVALID_CHANNEL
  | READ_FAILED
  | TIMEOUT
  | HARDWARE_ERROR
deriving DecidableEq

/-- The `convert_error` lambda of `readAdcVoltage` / `GetRawAdcValue`. -/
def convertAdcError : AdcError → ntc_err_t
  | .NOT_INITIALIZED => .NTC_ERR_NOT_INITIALIZED
  | .INVALID_CHANNEL => .NTC_ERR_INVALID_PARAMETER
  | .READ_FAILED => .NTC_ERR_ADC_READ_FAILED
  | .TIMEOUT => .NTC_ERR_TIMEOUT
  | .HARDWARE_ERROR => .NTC_ERR_HARDWARE_FAULT

/-- `ntc_conversion_method_t` (`NtcTypes.h`). -/
inductive ntc_conversion_method_t where
  | NTC_CONVERSION_LOOKUP_TABLE
  | NTC_CONVERSION_MATHEMATICAL
  | NTC_CONVERSION_AUTO
deriving DecidableEq

/-- `ntc_config_t` (`NtcTypes.h`).  Temperature-valued fields live over `ℝ`
(they feed the logarithmic conversions); the voltage-divider fields are
exact rationals. -/
structure ntc_config_t where
  type : Nat
  resistance_at_25c : ℝ
  beta_value : ℝ
  reference_voltage : ℚ
  series_resistance : ℚ
  calibration_offset : ℝ
  conversion_method : ntc_conversion_method_t
  adc_channel : Nat
  adc_resolution_bits : Nat
  sample_count : Nat
  sample_delay_ms : Nat
  min_temperature : ℝ
  max_temperature : ℝ
  enable_filtering : Bool
  filter_alpha : ℝ

/-- The mutable members of `NtcThermistor`. -/
structure NtcThermistorState where
  config : ntc_config_t
  initialized : Bool
  filtered_temperature : ℝ
  filter_initialized : Bool

/-- A per-read ADC capability: the outcome of `ReadChannelV` for each sample
index of one read call. -/
def AdcReads : Type := Nat → Except AdcError ℚ

/-- Outcome of a driver operation.  `oobRead` / `outOfFuel` propagate the
lookup-engine outcomes (out-of-bounds reads are undefined behaviour in the
C++ source, not an error return). -/
inductive DriverResult (α : Type) where
  | oobRead
  | outOfFuel
  | err (e : ntc_err_t)
  | ok (value : α)

/-- The sampling loop of `readAdcVoltage` for `i = 0, …, n−1`: the sum of the
successful sample voltages and the number of successful samples (failed
samples are discarded). -/
def sampleLoop (adc : AdcReads) : Nat → ℚ × Nat
  | 0 => (0, 0)
  | n + 1 =>
      let acc := sampleLoop adc n
      match adc n with
      | .ok sample_voltage => (acc.1 + sample_voltage, acc.2 + 1)
      | .error _ => acc

/-- `NtcThermistor::readAdcVoltage`: multi-sample averaging when
`sample_count > 1` (fails with `ADC_READ_FAILED` only when no sample
succeeds, otherwise averages the successful ones), single-sample otherwise
(any failure propagates immediately through `convert_error`). -/
def readAdcVoltage (config : ntc_config_t) (adc : AdcReads) :
    Except ntc_err_t ℚ :=
  if 1 < config.sample_count then
    let acc := sampleLoop adc config.sample_count
    if acc.2 = 0 then
      .error .NTC_ERR_ADC_READ_FAILED
    else
      .ok (acc.1 / (acc.2 : ℚ))
  else
    match adc 0 with
    | .error e => .error (convertAdcError e)
    | .ok sample_voltage => .ok sample_voltage

/-- `NtcThermistor::calculateResistance`: the voltage-divider solve, failing
with `CONVERSION_FAILED`. -/
def calculateResistance (config : ntc_config_t) (voltage_volts : ℚ) :
    Except ntc_err_t ℚ :=
  match CalculateThermistorResistance voltage_volts config.reference_voltage
      config.series_resistance with
  | none => .error .NTC_ERR_CONVERSION_FAILED
  | some resistance_ohms => .ok resistance_ohms

/-- The mathematical (Beta-parameter) arm of
`NtcThermistor::convertResistanceToTemperature`. -/
noncomputable def mathematicalConversion (config : ntc_config_t)
    (resistance_ohms : ℚ) : DriverResult ℝ :=
  match ConvertResistanceToTemperatureBeta (resistance_ohms : ℝ)
      config.resistance_at_25c config.beta_value with
  | none => .err .NTC_ERR_CONVERSION_FAILED
  | some temperature_celsius => .ok temperature_celsius

/-- `NtcThermistor::convertResistanceToTemperature`: with
`NTC_CONVERSION_LOOKUP_TABLE`, try the type's table and fall through to the
Beta conversion when there is no table or the lookup returns `false`; with
`NTC_CONVERSION_MATHEMATICAL`, `NTC_CONVERSION_AUTO` (and any other value),
use the Beta conversion directly. -/
noncomputable def convertResistanceToTemperature (config : ntc_config_t)
    (resistance_ohms : ℚ) : DriverResult ℝ :=
  match config.conversion_method with
  | .NTC_CONVERSION_LOOKUP_TABLE =>
      match GetNtcLookupTable config.type with
      | none => mathematicalConversion config resistance_ohms
      | some table =>
          match FindTemperatureFromLookupTable table resistance_ohms with
          | .ok temperature_celsius => .ok (temperature_celsius : ℝ)
          | .fail => mathematicalConversion config resistance_ohms
          | .oobRead => .oobRead
          | .outOfFuel => .outOfFuel
  | _ => mathematicalConversion config resistance_ohms

/-- `NtcThermistor::applyFiltering`: returns the input unchanged when
filtering is disabled; seeds the filter (and returns the raw value) on the
first call after a reset; otherwise stores and returns
`α·new + (1−α)·filtered`. -/
def applyFiltering (s : NtcThermistorState) (new_temperature : ℝ) :
    ℝ × NtcThermistorState :=
  if s.config.enable_filtering = false then
    (new_temperature, s)
  else if s.filter_initialized = false then
    (new_temperature,
      { s with filtered_temperature := new_temperature,
               filter_initialized := true })
  else
    let filtered := s.config.filter_alpha * new_temperature +
      (1 - s.config.filter_alpha) * s.filtered_temperature
    (filtered, { s with filtered_temperature := filtered })

/-- Steps (1)–(3) of `NtcThermistor::ReadTemperatureCelsius`: ADC voltage →
resistance → raw temperature.  None of these steps reads the calibration
offset or the filter state. -/
noncomputable def rawConversionResult (config : ntc_config_t)
    (adc : AdcReads) : DriverResult ℝ :=
  match readAdcVoltage config adc with
  | .error e => .err e
  | .ok voltage_volts =>
      match calculateResistance config voltage_volts with
      | .error e => .err e
      | .ok resistance_ohms =>
          convertResistanceToTemperature config resistance_ohms

open Classical in
/-- `NtcThermistor::ReadTemperatureCelsius`: ADC voltage → resistance →
temperature → calibration offset → optional filtering → range validation. -/
noncomputable def ReadTemperatureCelsius (s : NtcThermistorState)
    (adc : AdcReads) : DriverResult ℝ × NtcThermistorState :=
  if s.initialized = false then
    (.err .NTC_ERR_NOT_INITIALIZED, s)
  else
    match rawConversionResult s.config adc with
    | .oobRead => (.oobRead, s)
    | .outOfFuel => (.outOfFuel, s)
    | .err e => (.err e, s)
    | .ok raw_temperature =>
        let calibrated := raw_temperature + s.config.calibration_offset
        let step :=
          if s.config.enable_filtering then
            applyFiltering s calibrated
          else
            (calibrated, s)
        if ¬ ValidateTemperature step.1 s.config.min_temperature
            s.config.max_temperature then
          (.err .NTC_ERR_TEMPERATURE_OUT_OF_RANGE, step.2)
        else
          (.ok step.1, step.2)

/-- `NtcThermistor::Calibrate`: read the current temperature through the
normal pipeline, then store `reference − current` as the calibration
offset. -/
noncomputable def Calibrate (s : NtcThermistorState) (adc : AdcReads)
    (reference_temperature_celsius : ℝ) :
    DriverResult Unit × NtcThermistorState :=
  if s.initialized = false then
    (.err .NTC_ERR_NOT_INITIALIZED, s)
  else
    match ReadTemperatureCelsius s adc with
    | (.ok current_temperature, s') =>
        let new_offset :=
          reference_temperature_celsius - current_temperature
        (.ok (),
          { s' with config :=
              { s'.config with calibration_offset := new_offset } })
    | (.err e, s') => (.err e, s')
    | (.oobRead, s') => (.oobRead, s')
    | (.outOfFuel, s') => (.outOfFuel, s')

open Classical in
/-- `NtcThermistor::SetBetaValue`: validates the Beta bounds and overwrites
`config_.beta_value`.  It does **not** touch the filter state. -/
noncomputable def SetBetaValue (s : NtcThermistorState) (beta_value : ℝ) :
    ntc_err_t × NtcThermistorState :=
  if ¬ ValidateBetaValue beta_value then
    (.NTC_ERR_INVALID_PARAMETER, s)
  else
    (.NTC_SUCCESS,
      { s with config := { s.config with beta_value := beta_value } })

open Classical in
/-- `NtcThermistor::SetFiltering`: validates `α ∈ [0, 1]`, stores the enable
flag and coefficient, and resets the filter state. -/
noncomputable def SetFiltering (s : NtcThermistorState) (enable : Bool)
    (alpha : ℝ) : ntc_err_t × NtcThermistorState :=
  if alpha < 0 ∨ 1 < alpha then
    (.NTC_ERR_INVALID_PARAMETER, s)
  else
    (.NTC_SUCCESS,
      { s with
          config := { s.config with enable_filtering := enable,
                                    filter_alpha := alpha },
          filtered_temperature := 0,
          filter_initialized := false })

open Classical in
/-- `NtcThermistor::validateConfiguration`. -/
noncomputable def validateConfiguration (config : ntc_config_t) : ntc_err_t :=
  if config.resistance_at_25c ≤ 0 then .NTC_ERR_INVALID_PARAMETER
  else if ¬ ValidateBetaValue config.beta_value then
    .NTC_ERR_INVALID_PARAMETER
  else if config.reference_voltage ≤ 0 then .NTC_ERR_INVALID_PARAMETER
  else if config.series_resistance ≤ 0 then .NTC_ERR_INVALID_PARAMETER
  else if config.sample_count = 0 then .NTC_ERR_INVALID_PARAMETER
  else if config.max_temperature ≤ config.min_temperature then
    .NTC_ERR_INVALID_PARAMETER
  else if config.enable_filtering ∧
      (config.filter_alpha < 0 ∨ 1 < config.filter_alpha) then
    .NTC_ERR_INVALID_PARAMETER
  else .NTC_SUCCESS

open Classical in
/-- `NtcThermistor::SetConfiguration`: validates the whole record, installs
it, and resets the filter state. -/
noncomputable def SetConfiguration (s : NtcThermistorState)
    (config : ntc_config_t) : ntc_err_t × NtcThermistorState :=
  let validation_error := validateConfiguration config
  if validation_error ≠ .NTC_SUCCESS then
    (validation_error, s)
  else
    (.NTC_SUCCESS,
      { s with config := config,
               filtered_temperature := 0,
               filter_initialized := false })

end NTC

namespace NTC

/-! ## Concrete fixtures used by witnesses and counterexamples -/

/-- A default-style configuration (cf. `NTC_CONFIG_DEFAULT()`): type
`NTCG163JFT103FT1S`, 10 kΩ @ 25 °C, β = 3435 K, 3.3 V reference, 10 kΩ
series resistor, `AUTO` conversion, single sample, range −40…125 °C,
filtering disabled, α = 0.1. -/
noncomputable def mockConfig : ntc_config_t :=
  { type := 1
    resistance_at_25c := 10000
    beta_value := 3435
    reference_voltage := 33/10
    series_resistance := 10000
    calibration_offset := 0
    conversion_method := .NTC_CONVERSION_AUTO
    adc_channel := 0
    adc_resolution_bits := 12
    sample_count := 1
    sample_delay_ms := 0
    min_temperature := -40
    max_temperature := 125
    enable_filtering := false
    filter_alpha := 1/10 }

/-- An initialized driver with `mockConfig` and a reset filter. -/
noncomputable def mockState : NtcThermistorState :=
  { config := mockConfig
    initialized := true
    filtered_temperature := 0
    filter_initialized := false }

/-- A deterministic mock ADC: every sample reads 2.2 V. -/
def mockAdc : AdcReads := fun _ => .ok (11/5)

/-- The raw temperature the mock pipeline produces from 2.2 V: the divider
gives 20 kΩ, and the Beta equation gives
`1/T = 1/298.15 + ln 2/3435`, `t = 1/(1/T) − 273.15`. -/
noncomputable def mockRawTemp : ℝ :=
  1 / (1 / ((kReferenceTemperatureC : ℝ) + (kKelvinOffset : ℝ)) +
    Real.log 2 / 3435) - (kKelvinOffset : ℝ)

/-- A driver whose exponential filter is already seeded. -/
noncomputable def seededFilterState : NtcThermistorState :=
  { config := mockConfig
    initialized := true
    filtered_temperature := 50
    filter_initialized := true }

/-- A filtering-enabled driver whose configured temperature range the mock
reading violates (`max_temperature = 0`). -/
noncomputable def outOfRangeState : NtcThermistorState :=
  { config := { mockConfig with enable_filtering := true,
                                filter_alpha := 1/2,
                                max_temperature := 0 }
    initialized := true
    filtered_temperature := 0
    filter_initialized := false }

/-- A mock ADC where each sample times out. -/
def timeoutAdc : AdcReads := fun _ => .error .TIMEOUT

/-- A mock ADC where sample 0 reads 1 V, sample 1 fails, and later samples
read 2 V. -/
def mixedAdc : AdcReads := fun i =>
  if i = 0 then .ok 1 else if i = 1 then .error .READ_FAILED else .ok 2

end NTC

namespace NTC

/-! ## Claims

The `Rat` field operations are `@[irreducible]` in the ambient library for
performance reasons only; concrete evaluations of the (computable) lookup
engine re-enable their reduction locally so that `decide` can run them in
the kernel. -/

set_option maxRecDepth 8000 in
attribute [local semireducible] Rat.add Rat.mul Rat.inv Rat.sub Rat.ofScientific in
/-- **C1.**  The claim: for every valid table and in-range resistance,
`FindTemperatureFromLookupTable` interpolates between a bracketing
consecutive pair; in particular, on a table containing the consecutive
entries `{10.6 Ω, 13 °C}` and `{10.1 Ω, 14 °C}`, resistance 10.35 must give
13.5 ± 0.01.  The code diverges: the binary search compares as if the table
were sorted ascending, runs off the high-temperature end, and the final
clamp hands back the last entry pair `(164, 165)`; the standard table
(which contains those two entries consecutively at indices 53, 54) yields
−28.5 °C for 10.35 Ω — not an interpolation of any bracketing pair. -/
theorem claim_C1_lookup_example_eval :
    NTCG163JFT103FT1S_TABLE.get? 53 = some ⟨106/10, 13⟩ ∧
    NTCG163JFT103FT1S_TABLE.get? 54 = some ⟨101/10, 14⟩ ∧
    FindTemperatureFromLookupTable NTCG163JFT103FT1S_LOOKUP_TABLE (1035/100)
      = .ok (-57/2) ∧
    ¬ |(-57/2 : ℚ) - 27/2| ≤ 1/100 := by
  refine ⟨by decide, by decide, by decide, by decide⟩

set_option maxRecDepth 8000 in
attribute [local semireducible] Rat.add Rat.mul Rat.inv Rat.sub Rat.ofScientific in
/-- **C2.**  The claim: lookup on a valid table never crashes or reads out
of the table's bounds, fails strictly outside
`[min_resistance, max_resistance]`, and succeeds at the exact boundary
values.  The failure direction holds (1 Ω outside either end fails), but at
the lower boundary `resistance = min_resistance = 0` the search loop
reaches `left = right = mid = 0`, executes `right = mid - 1` on `size_t`
(wrapping to `2⁶⁴ − 1`), and the next iteration reads `entries[2⁶³ − 1]` —
an out-of-bounds access. -/
theorem claim_C2_boundary_oob_eval :
    NTCG163JFT103FT1S_LOOKUP_TABLE.min_resistance = 0 ∧
    FindTemperatureFromLookupTable NTCG163JFT103FT1S_LOOKUP_TABLE 0
      = .oobRead ∧
    FindTemperatureFromLookupTable NTCG163JFT103FT1S_LOOKUP_TABLE (-1)
      = .fail ∧
    FindTemperatureFromLookupTable NTCG163JFT103FT1S_LOOKUP_TABLE (3377/10)
      = .fail := by
  refine ⟨by decide, by decide, by decide, by decide⟩

attribute [local semireducible] Rat.add Rat.mul Rat.inv Rat.sub Rat.ofScientific in
/-- **C9.**  `CalculateThermistorResistance` returns
`R_series · (V_th/(V_ref − V_th))`, fails exactly when `V_th ∉ [0, V_ref]`,
`V_ref ≤ 0`, `R_series ≤ 0`, or `|V_ref − V_th| < 1e-6`; and the divider
`3.3 V, 1.65 V, 10 kΩ` yields exactly 10 kΩ. -/
theorem claim_C9_divider (v vref rs : ℚ) :
    (CalculateThermistorResistance v vref rs = none ↔
      ¬ (0 ≤ v ∧ v ≤ vref) ∨ vref ≤ 0 ∨ rs ≤ 0 ∨
        |vref - v| < 1/1000000) ∧
    (∀ r, CalculateThermistorResistance v vref rs = some r →
      r = rs * (v / (vref - v))) ∧
    CalculateThermistorResistance (33/20) (33/10) 10000 = some 10000 := by
  refine ⟨?_, ?_, by decide⟩
  · simp only [CalculateThermistorResistance, ValidateVoltage, kEpsilonFloat]
    split_ifs with h1 h2 h3 <;> simp_all
    tauto
  · intro r hr
    simp only [CalculateThermistorResistance, ValidateVoltage,
      kEpsilonFloat] at hr
    split_ifs at hr
    exact (Option.some.inj hr).symm

/-- Witness for C9 at the divider example `3.3 V, 1.65 V, 10 kΩ`. -/
theorem claim_C9_divider_witness :
    CalculateThermistorResistance (33/20) (33/10) 10000 = some 10000 ∧
    (10000 : ℚ) = 10000 * ((33/20) / ((33/10) - 33/20)) :=
  ⟨(claim_C9_divider (33/20) (33/10) 10000).2.2,
    (claim_C9_divider (33/20) (33/10) 10000).2.1 10000
      (claim_C9_divider (33/20) (33/10) 10000).2.2⟩

/-- **C4.**  Resistance→temperature dispatch: `AUTO` behaves identically to
`MATHEMATICAL` on every input (both go straight to the Beta conversion), and
with `LOOKUP_TABLE` the type's table is tried first, any lookup failure
(no table for the type, or a `false`-returning table query) falling through
to the Beta conversion, while a successful query returns its temperature. -/
theorem claim_C4_method_dispatch (cfg : ntc_config_t) (r : ℚ) :
    (convertResistanceToTemperature
        { cfg with conversion_method := .NTC_CONVERSION_AUTO } r =
      convertResistanceToTemperature
        { cfg with conversion_method := .NTC_CONVERSION_MATHEMATICAL } r) ∧
    (convertResistanceToTemperature
        { cfg with conversion_method := .NTC_CONVERSION_MATHEMATICAL } r =
      mathematicalConversion cfg r) ∧
    (cfg.conversion_method = .NTC_CONVERSION_LOOKUP_TABLE →
      (GetNtcLookupTable cfg.type = none →
        convertResistanceToTemperature cfg r = mathematicalConversion cfg r) ∧
      (∀ table, GetNtcLookupTable cfg.type = some table →
        (FindTemperatureFromLookupTable table r = .fail →
          convertResistanceToTemperature cfg r =
            mathematicalConversion cfg r) ∧
        (∀ t, FindTemperatureFromLookupTable table r = .ok t →
          convertResistanceToTemperature cfg r = .ok (t : ℝ)))) := by
  refine ⟨rfl, rfl, fun hm => ⟨fun hnone => ?_, fun table htable =>
    ⟨fun hfail => ?_, fun t hok => ?_⟩⟩⟩
  · simp [convertResistanceToTemperature, hm, hnone, mathematicalConversion]
  · simp [convertResistanceToTemperature, hm, htable, hfail,
      mathematicalConversion]
  · simp [convertResistanceToTemperature, hm, htable, hok]

set_option maxRecDepth 8000 in
attribute [local semireducible] Rat.add Rat.mul Rat.inv Rat.sub Rat.ofScientific in
/-- Witness for C4: with an unknown type (0) there is no table and lookup
mode falls through to the Beta conversion; with type 1 and 3.3 Ω (an exact
table hit at entry 82, temperature 42 °C) the lookup result is returned;
and `AUTO` equals `MATHEMATICAL` at the mock configuration. -/
theorem claim_C4_method_dispatch_witness :
    (convertResistanceToTemperature
        { mockConfig with conversion_method := .NTC_CONVERSION_LOOKUP_TABLE,
                          type := 0 } (33/10) =
      mathematicalConversion
        { mockConfig with conversion_method := .NTC_CONVERSION_LOOKUP_TABLE,
                          type := 0 } (33/10)) ∧
    (convertResistanceToTemperature
        { mockConfig with conversion_method := .NTC_CONVERSION_LOOKUP_TABLE }
        (33/10) = .ok ((42 : ℚ) : ℝ)) ∧
    (convertResistanceToTemperature
        { mockConfig with conversion_method := .NTC_CONVERSION_AUTO }
        (33/10) =
      convertResistanceToTemperature
        { mockConfig with conversion_method := .NTC_CONVERSION_MATHEMATICAL }
        (33/10)) :=
  ⟨((claim_C4_method_dispatch
      { mockConfig with conversion_method := .NTC_CONVERSION_LOOKUP_TABLE,
                        type := 0 } (33/10)).2.2 rfl).1 (by decide),
    (((claim_C4_method_dispatch
        { mockConfig with conversion_method := .NTC_CONVERSION_LOOKUP_TABLE }
        (33/10)).2.2 rfl).2 NTCG163JFT103FT1S_LOOKUP_TABLE (by decide)).2 42
      (by decide),
    (claim_C4_method_dispatch mockConfig (33/10)).1⟩

/-- The sampling loop accumulates exactly the successful samples: its sum
and count are those of `[adc 0, …, adc (n−1)]` restricted to successes. -/
theorem sampleLoop_eq_filterMap (adc : AdcReads) (n : Nat) :
    sampleLoop adc n =
      (((List.range n).filterMap fun i => (adc i).toOption).sum,
        ((List.range n).filterMap fun i => (adc i).toOption).length) := by
  induction n with
  | zero => simp [sampleLoop]
  | succ n ih =>
      rw [List.range_succ, List.filterMap_append]
      simp only [sampleLoop, ih]
      cases h : adc n <;> simp [h, Except.toOption]

/-- No sample succeeds iff the loop counts zero successes. -/
theorem sampleLoop_zero_iff (adc : AdcReads) (n : Nat) :
    (sampleLoop adc n).2 = 0 ↔ ∀ i < n, ∀ v, adc i ≠ .ok v := by
  rw [sampleLoop_eq_filterMap]
  simp only [List.length_eq_zero, List.filterMap_eq_nil_iff, List.mem_range]
  constructor
  · intro h i hi v hv
    have := h i hi
    rw [hv] at this
    simp [Except.toOption] at this
  · intro h i hi
    cases hv : adc i with
    | error e => simp [Except.toOption]
    | ok v => exact absurd hv (h i hi v)

/-- **C6.**  Timeout and sampling error policy: a single-sample ADC timeout
is propagated unchanged (`NTC_ERR_TIMEOUT`) through `readAdcVoltage` and
`ReadTemperatureCelsius`; a single-sample failure propagates immediately via
`convert_error`; multi-sample averaging succeeds with the average of the
successful samples as soon as one sample succeeds, and fails (with
`NTC_ERR_ADC_READ_FAILED`) exactly when every sample fails. -/
theorem claim_C6_adc_error_policy (s : NtcThermistorState)
    (cfg : ntc_config_t) (adc : AdcReads) :
    (s.initialized = true → s.config.sample_count ≤ 1 →
      adc 0 = .error .TIMEOUT →
      ReadTemperatureCelsius s adc = (.err .NTC_ERR_TIMEOUT, s)) ∧
    (∀ e : AdcError, cfg.sample_count ≤ 1 → adc 0 = .error e →
      readAdcVoltage cfg adc = .error (convertAdcError e)) ∧
    (1 < cfg.sample_count →
      (∃ i < cfg.sample_count, ∃ v, adc i = .ok v) →
      readAdcVoltage cfg adc =
        .ok ((((List.range cfg.sample_count).filterMap
              fun i => (adc i).toOption).sum) /
          ((((List.range cfg.sample_count).filterMap
              fun i => (adc i).toOption).length : ℚ)))) ∧
    (1 < cfg.sample_count →
      (∀ i < cfg.sample_count, ∀ v, adc i ≠ .ok v) →
      readAdcVoltage cfg adc = .error .NTC_ERR_ADC_READ_FAILED) := by
  refine ⟨fun hinit hcount hadc => ?_, fun e hcount hadc => ?_,
    fun hcount hex => ?_, fun hcount hall => ?_⟩
  · have hr : readAdcVoltage s.config adc
        = .error (convertAdcError .TIMEOUT) := by
      simp [readAdcVoltage, Nat.not_lt.mpr hcount, hadc]
    simp [ReadTemperatureCelsius, rawConversionResult, hinit, hr,
      convertAdcError]
  · simp [readAdcVoltage, Nat.not_lt.mpr hcount, hadc]
  · have hs := sampleLoop_eq_filterMap adc cfg.sample_count
    have hne : (((List.range cfg.sample_count).filterMap
        fun i => (adc i).toOption).length) ≠ 0 := by
      intro h0
      obtain ⟨i, hi, v, hv⟩ := hex
      exact (sampleLoop_zero_iff adc cfg.sample_count).mp
        (by rw [hs]; exact h0) i hi v hv
    simp only [readAdcVoltage, hs]
    split_ifs
    rfl
  · have hz : (sampleLoop adc cfg.sample_count).2 = 0 :=
      (sampleLoop_zero_iff adc cfg.sample_count).mpr hall
    simp [readAdcVoltage, hcount, hz]

attribute [local semireducible] Rat.add Rat.mul Rat.inv Rat.sub Rat.ofScientific in
/-- Witness for C6: a timed-out single sample propagates `NTC_ERR_TIMEOUT`
through the initialized mock driver, and with three samples reading
`1 V, failure, 2 V` the averaging read yields `(1+2)/2 = 1.5 V`. -/
theorem claim_C6_adc_error_policy_witness :
    ReadTemperatureCelsius mockState timeoutAdc
      = (.err .NTC_ERR_TIMEOUT, mockState) ∧
    readAdcVoltage { mockConfig with sample_count := 3 } mixedAdc
      = .ok (3/2) := by
  constructor
  · exact (claim_C6_adc_error_policy mockState mockConfig timeoutAdc).1
      rfl (by norm_num [mockState, mockConfig]) rfl
  · have h := (claim_C6_adc_error_policy mockState
      { mockConfig with sample_count := 3 } mixedAdc).2.2.1
      (by norm_num) ⟨0, by norm_num, 1, rfl⟩
    have hlist : ((List.range
        ({ mockConfig with sample_count := 3 } :
          ntc_config_t).sample_count).filterMap
        fun i => (mixedAdc i).toOption) = [1, 2] := by
      show ((List.range 3).filterMap fun i => (mixedAdc i).toOption) = [1, 2]
      decide
    rw [h, hlist]
    norm_num

/-- **C7.**  The Steinhart-Hart inverse uses the approximation
`ln R ≈ (1/T_K − A)/B` (dropping the cubic `C` term) and returns
`exp(ln R)`; it fails exactly when the temperature fails range validation,
the coefficients fail bounds validation, the absolute temperature is
non-positive, or `|ln R| ≥ 20`. -/
theorem claim_C7_sh_inverse (t a b c : ℝ) :
    (∀ r, ConvertTemperatureToResistanceSteinhartHart t a b c = some r →
      r = Real.exp ((1 / (t + (kKelvinOffset : ℝ)) - a) / b)) ∧
    (ConvertTemperatureToResistanceSteinhartHart t a b c = none ↔
      ¬ ValidateTemperature t (kMinTemperatureCelsius : ℝ)
          (kMaxTemperatureCelsius : ℝ) ∨
      ¬ ValidateSteinhartHartCoefficients a b c ∨
      t + (kKelvinOffset : ℝ) ≤ 0 ∨
      20 ≤ |(1 / (t + (kKelvinOffset : ℝ)) - a) / b|) := by
  have habs : (20 : ℝ) ≤ |(1 / (t + (kKelvinOffset : ℝ)) - a) / b| ↔
      ((1 / (t + (kKelvinOffset : ℝ)) - a) / b ≤ -20 ∨
        (20 : ℝ) ≤ (1 / (t + (kKelvinOffset : ℝ)) - a) / b) := by
    rw [le_abs]
    constructor
    · rintro (h | h)
      · exact Or.inr h
      · exact Or.inl (by linarith)
    · rintro (h | h)
      · exact Or.inr (by linarith)
      · exact Or.inl h
  constructor
  · intro r hr
    simp only [ConvertTemperatureToResistanceSteinhartHart] at hr
    split_ifs at hr
    exact (Option.some.inj hr).symm
  · simp only [ConvertTemperatureToResistanceSteinhartHart, habs]
    split_ifs <;>
      first
        | exact iff_of_true rfl (by tauto)
        | exact iff_of_false (by simp) (by tauto)

/-- Witness for C7: at 25 °C with `A = 0, B = 1e-4, C = 0` (coefficients
inside the validation bounds) the approximated `ln R = 10000/298.15 ≈ 33.5`
exceeds 20, so the inverse is rejected. -/
theorem claim_C7_sh_inverse_witness :
    ConvertTemperatureToResistanceSteinhartHart 25 0 (1/10000) 0 = none :=
  (claim_C7_sh_inverse 25 0 (1/10000) 0).2.mpr
    (Or.inr (Or.inr (Or.inr (by
      have hk : ((kKelvinOffset : ℚ) : ℝ) = 273.15 := by
        norm_num [kKelvinOffset]
      rw [hk]
      have hv : (1 / (25 + (273.15 : ℝ)) - 0) / (1 / 10000)
          = 10000 / 298.15 := by
        norm_num
      rw [hv, abs_of_nonneg (by norm_num)]
      norm_num))))

/-- **C5 (counterexample).**  The claim says the filter state is reset
"whenever the configuration changes".  `SetBetaValue` changes the
configuration (β: 3435 → 3000, accepted as valid) yet leaves the filter
state untouched: a driver whose filter is seeded at 50 °C keeps
`filter_initialized = true` and `filtered_temperature = 50` across the
call. -/
theorem claim_C5_counterexample :
    (SetBetaValue seededFilterState 3000).1 = .NTC_SUCCESS ∧
    (SetBetaValue seededFilterState 3000).2.config.beta_value ≠
      seededFilterState.config.beta_value ∧
    seededFilterState.filter_initialized = true ∧
    (SetBetaValue seededFilterState 3000).2.filter_initialized = true ∧
    (SetBetaValue seededFilterState 3000).2.filtered_temperature =
      seededFilterState.filtered_temperature := by
  have hv : ValidateBetaValue 3000 := by
    constructor <;> norm_num [kMinBetaValue, kMaxBetaValue]
  refine ⟨?_, ?_, by simp [seededFilterState], ?_, ?_⟩
  · simp [SetBetaValue, hv]
  · simp only [SetBetaValue, if_neg (not_not_intro hv)]
    show (3000 : ℝ) ≠ seededFilterState.config.beta_value
    norm_num [seededFilterState, mockConfig]
  · simp [SetBetaValue, hv, seededFilterState]
  · simp [SetBetaValue, hv]

/-- **C5 (amended).**  The filter state is reset by the whole-record
`SetConfiguration` and by `SetFiltering` (but not by the individual field
setters, see the counterexample); with filtering enabled, the first reading
after a reset returns the calibrated raw value exactly (and seeds the
filter with it), and a reading with a seeded filter returns and stores
`α·new + (1−α)·previous`. -/
theorem claim_C5_amended (s : NtcThermistorState) (adc : AdcReads)
    (cfg : ntc_config_t) (enable : Bool) (alpha : ℝ) (raw : ℝ) :
    (validateConfiguration cfg = .NTC_SUCCESS →
      (SetConfiguration s cfg).2.filter_initialized = false ∧
      (SetConfiguration s cfg).2.filtered_temperature = 0 ∧
      (SetConfiguration s cfg).2.config = cfg) ∧
    (0 ≤ alpha → alpha ≤ 1 →
      (SetFiltering s enable alpha).2.filter_initialized = false ∧
      (SetFiltering s enable alpha).2.filtered_temperature = 0) ∧
    (s.initialized = true → s.config.enable_filtering = true →
      s.filter_initialized = false →
      rawConversionResult s.config adc = .ok raw →
      ValidateTemperature (raw + s.config.calibration_offset)
        s.config.min_temperature s.config.max_temperature →
      ReadTemperatureCelsius s adc =
        (.ok (raw + s.config.calibration_offset),
          { s with
              filtered_temperature := raw + s.config.calibration_offset,
              filter_initialized := true })) ∧
    (s.initialized = true → s.config.enable_filtering = true →
      s.filter_initialized = true →
      rawConversionResult s.config adc = .ok raw →
      ValidateTemperature
        (s.config.filter_alpha * (raw + s.config.calibration_offset) +
          (1 - s.config.filter_alpha) * s.filtered_temperature)
        s.config.min_temperature s.config.max_temperature →
      ReadTemperatureCelsius s adc =
        (.ok (s.config.filter_alpha * (raw + s.config.calibration_offset) +
            (1 - s.config.filter_alpha) * s.filtered_temperature),
          { s with
              filtered_temperature :=
                s.config.filter_alpha * (raw + s.config.calibration_offset) +
                  (1 - s.config.filter_alpha) * s.filtered_temperature })) := by
  refine ⟨fun hval => ?_, fun h0 h1 => ?_, fun hinit hfil hseed hraw hv => ?_,
    fun hinit hfil hseed hraw hv => ?_⟩
  · simp [SetConfiguration, hval]
  · have : ¬ (alpha < 0 ∨ 1 < alpha) := by
      push_neg
      exact ⟨h0, h1⟩
    simp [SetFiltering, this]
  · simp [ReadTemperatureCelsius, hinit, hraw, applyFiltering, hfil, hseed, hv]
  · simp [ReadTemperatureCelsius, hinit, hraw, applyFiltering, hfil, hseed, hv]

/-! ### Cast values of the rational constants -/

theorem kKelvinOffset_real : ((kKelvinOffset : ℚ) : ℝ) = 273.15 := by
  norm_num [kKelvinOffset]

theorem kReferenceTemperatureC_real :
    ((kReferenceTemperatureC : ℚ) : ℝ) = 25 := by
  norm_num [kReferenceTemperatureC]

theorem kMinResistanceOhms_real : ((kMinResistanceOhms : ℚ) : ℝ) = 0.1 := by
  norm_num [kMinResistanceOhms]

theorem kMaxResistanceOhms_real :
    ((kMaxResistanceOhms : ℚ) : ℝ) = 1000000 := by
  norm_num [kMaxResistanceOhms]

theorem kMinBetaValue_real : ((kMinBetaValue : ℚ) : ℝ) = 1000 := by
  norm_num [kMinBetaValue]

theorem kMaxBetaValue_real : ((kMaxBetaValue : ℚ) : ℝ) = 5000 := by
  norm_num [kMaxBetaValue]

/-! ### Success characterizations of the forward conversions -/

/-- `ConvertResistanceToTemperatureBeta` succeeds with `t` exactly when the
inputs validate, `1/T = 1/298.15 + ln(R/R₀)/β` is positive, and
`t = 1/(1/T) − 273.15`. -/
theorem beta_eq_some_iff (r r0 β t : ℝ) :
    ConvertResistanceToTemperatureBeta r r0 β = some t ↔
      (0.1 ≤ r ∧ r ≤ 1000000) ∧ (1000 ≤ β ∧ β ≤ 5000) ∧ 0 < r0 ∧
      0 < 1 / 298.15 + Real.log (r / r0) / β ∧
      t = 1 / (1 / 298.15 + Real.log (r / r0) / β) - 273.15 := by
  have h298 : (25 : ℝ) + 273.15 = 298.15 := by norm_num
  simp only [ConvertResistanceToTemperatureBeta, ValidateResistance,
    ValidateBetaValue, kMinResistanceOhms_real, kMaxResistanceOhms_real,
    kMinBetaValue_real, kMaxBetaValue_real, kKelvinOffset_real,
    kReferenceTemperatureC_real, h298]
  split_ifs with h1 h2 h3 h4
  · simp only [reduceCtorEq, false_iff]
    rintro ⟨-, -, hr0, -, -⟩
    exact absurd h3 (not_le.mpr hr0)
  · simp only [reduceCtorEq, false_iff]
    rintro ⟨-, -, -, hpos, -⟩
    exact absurd h4 (not_le.mpr hpos)
  · simp only [Option.some.injEq]
    constructor
    · intro h
      exact ⟨h1, h2, lt_of_not_le h3, lt_of_not_le h4, h.symm⟩
    · rintro ⟨-, -, -, -, ht⟩
      exact ht.symm
  · simp only [reduceCtorEq, false_iff]
    rintro ⟨-, hβ, -, -, -⟩
    exact h2 hβ
  · simp only [reduceCtorEq, false_iff]
    rintro ⟨hr, -, -, -, -⟩
    exact h1 hr

/-- `ConvertResistanceToTemperatureSteinhartHart` succeeds with `t` exactly
when the inputs validate, `1/T = A + B·ln R + C·(ln R)³` is positive, and
`t = 1/(1/T) − 273.15`. -/
theorem sh_eq_some_iff (r a b c t : ℝ) :
    ConvertResistanceToTemperatureSteinhartHart r a b c = some t ↔
      (0.1 ≤ r ∧ r ≤ 1000000) ∧ ValidateSteinhartHartCoefficients a b c ∧
      0 < a + b * Real.log r + c * (Real.log r * Real.log r * Real.log r) ∧
      t = 1 / (a + b * Real.log r +
          c * (Real.log r * Real.log r * Real.log r)) - 273.15 := by
  simp only [ConvertResistanceToTemperatureSteinhartHart, ValidateResistance,
    kMinResistanceOhms_real, kMaxResistanceOhms_real, kKelvinOffset_real]
  split_ifs with h1 h2 h3
  · simp only [reduceCtorEq, false_iff]
    rintro ⟨-, -, hpos, -⟩
    exact absurd h3 (not_le.mpr hpos)
  · simp only [Option.some.injEq]
    constructor
    · intro h
      exact ⟨h1, h2, lt_of_not_le h3, h.symm⟩
    · rintro ⟨-, -, -, ht⟩
      exact ht.symm
  · simp only [reduceCtorEq, false_iff]
    rintro ⟨-, hc, -, -⟩
    exact h2 hc
  · simp only [reduceCtorEq, false_iff]
    rintro ⟨hr, -, -, -⟩
    exact h1 hr

/-! ### Evaluation of the mock pipeline -/

/-- The mock raw temperature lies between 7 °C and 9 °C (from the d9 bounds
on `ln 2`). -/
theorem mockRawTemp_bounds : 7 < mockRawTemp ∧ mockRawTemp < 9 := by
  have hL1 : (0.6931471803 : ℝ) < Real.log 2 := Real.log_two_gt_d9
  have hL2 : Real.log 2 < 0.6931471808 := Real.log_two_lt_d9
  unfold mockRawTemp
  rw [kReferenceTemperatureC_real, kKelvinOffset_real]
  have h0 : (0:ℝ) < 1 / (25 + 273.15) + Real.log 2 / 3435 := by
    norm_num
    linarith
  constructor
  · have hinv : 1 / (25 + 273.15) + Real.log 2 / 3435 < 1 / 280.15 := by
      norm_num
      linarith
    have := one_div_lt_one_div_of_lt h0 hinv
    norm_num at this ⊢
    linarith
  · have hinv : 1 / 282.15 < 1 / (25 + 273.15) + Real.log 2 / 3435 := by
      norm_num
      linarith
    have := one_div_lt_one_div_of_lt (by norm_num : (0:ℝ) < 1 / 282.15) hinv
    norm_num at this ⊢
    linarith

attribute [local semireducible] Rat.add Rat.mul Rat.inv Rat.sub Rat.ofScientific in
/-- At 2.2 V the divider solve yields exactly 20 kΩ. -/
theorem mock_divider_eval :
    CalculateThermistorResistance (11/5) (33/10) 10000 = some 20000 := by
  decide

/-- Any configuration with the mock electrical parameters and method `AUTO`
converts the constant 2.2 V ADC into the raw temperature `mockRawTemp`. -/
theorem mock_pipeline_raw (cfg : ntc_config_t)
    (h1 : cfg.sample_count = 1) (h2 : cfg.reference_voltage = 33/10)
    (h3 : cfg.series_resistance = 10000) (h4 : cfg.resistance_at_25c = 10000)
    (h5 : cfg.beta_value = 3435)
    (h6 : cfg.conversion_method = .NTC_CONVERSION_AUTO) :
    rawConversionResult cfg mockAdc = .ok mockRawTemp := by
  have hv : readAdcVoltage cfg mockAdc = .ok (11/5) := by
    simp [readAdcVoltage, h1, mockAdc]
  have hcr : calculateResistance cfg (11/5) = .ok 20000 := by
    simp [calculateResistance, h2, h3, mock_divider_eval]
  have hlog : ((20000 : ℚ) : ℝ) / 10000 = 2 := by norm_num
  have hbeta : ConvertResistanceToTemperatureBeta ((20000 : ℚ) : ℝ)
      cfg.resistance_at_25c cfg.beta_value = some mockRawTemp := by
    rw [h4, h5, beta_eq_some_iff]
    refine ⟨⟨by norm_num, by norm_num⟩, ⟨by norm_num, by norm_num⟩,
      by norm_num, ?_, ?_⟩
    · rw [hlog]
      have := Real.log_two_gt_d9
      norm_num
      linarith
    · rw [hlog]
      unfold mockRawTemp
      rw [kReferenceTemperatureC_real, kKelvinOffset_real]
      norm_num
  have hbeta' : ConvertResistanceToTemperatureBeta (20000 : ℝ)
      cfg.resistance_at_25c cfg.beta_value = some mockRawTemp := by
    have hc : ((20000 : ℚ) : ℝ) = (20000 : ℝ) := by norm_num
    rw [← hc]
    exact hbeta
  simp [rawConversionResult, hv, hcr, convertResistanceToTemperature, h6,
    mathematicalConversion, hbeta, hbeta']

/-- A filtering-disabled read leaves the driver state untouched. -/
theorem read_nofilter_state (s : NtcThermistorState) (adc : AdcReads)
    (hfil : s.config.enable_filtering = false) :
    (ReadTemperatureCelsius s adc).2 = s := by
  by_cases hi : s.initialized = false
  · simp [ReadTemperatureCelsius, hi]
  · cases h : rawConversionResult s.config adc with
    | oobRead => simp [ReadTemperatureCelsius, hi, h]
    | outOfFuel => simp [ReadTemperatureCelsius, hi, h]
    | err e => simp [ReadTemperatureCelsius, hi, h]
    | ok raw =>
        by_cases hv : ValidateTemperature (raw + s.config.calibration_offset)
            s.config.min_temperature s.config.max_temperature
        · simp [ReadTemperatureCelsius, hi, h, hfil, hv]
        · simp [ReadTemperatureCelsius, hi, h, hfil, hv]

/-- A successful filtering-disabled read returns the raw conversion result
plus the calibration offset. -/
theorem read_nofilter_ok (s : NtcThermistorState) (adc : AdcReads) (t : ℝ)
    (hfil : s.config.enable_filtering = false)
    (h : (ReadTemperatureCelsius s adc).1 = .ok t) :
    ∃ raw, rawConversionResult s.config adc = .ok raw ∧
      t = raw + s.config.calibration_offset := by
  by_cases hi : s.initialized = false
  · simp [ReadTemperatureCelsius, hi] at h
  · cases hr : rawConversionResult s.config adc with
    | oobRead => simp [ReadTemperatureCelsius, hi, hr] at h
    | outOfFuel => simp [ReadTemperatureCelsius, hi, hr] at h
    | err e => simp [ReadTemperatureCelsius, hi, hr] at h
    | ok raw =>
        refine ⟨raw, rfl, ?_⟩
        by_cases hv : ValidateTemperature (raw + s.config.calibration_offset)
            s.config.min_temperature s.config.max_temperature
        · simp [ReadTemperatureCelsius, hi, hr, hfil, hv] at h
          exact h.symm
        · simp [ReadTemperatureCelsius, hi, hr, hfil, hv] at h

/-- A successful filtering-disabled read at concrete inputs. -/
theorem read_nofilter_eval (s : NtcThermistorState) (adc : AdcReads) (raw : ℝ)
    (hi : s.initialized = true)
    (hfil : s.config.enable_filtering = false)
    (hraw : rawConversionResult s.config adc = .ok raw)
    (hv : ValidateTemperature (raw + s.config.calibration_offset)
      s.config.min_temperature s.config.max_temperature) :
    ReadTemperatureCelsius s adc =
      (.ok (raw + s.config.calibration_offset), s) := by
  simp [ReadTemperatureCelsius, hi, hraw, hfil, hv]

/-- The raw conversion pipeline never reads the calibration offset. -/
theorem rawConversionResult_offset (cfg : ntc_config_t) (adc : AdcReads)
    (x : ℝ) :
    rawConversionResult { cfg with calibration_offset := x } adc
      = rawConversionResult cfg adc := rfl

/-- A successful `Calibrate` stores `reference − reading` and changes
nothing else (filtering disabled). -/
theorem calibrate_ok_structure (s : NtcThermistorState) (adc : AdcReads)
    (ref : ℝ) (hfil : s.config.enable_filtering = false)
    (h : (Calibrate s adc ref).1 = .ok ()) :
    ∃ t, (ReadTemperatureCelsius s adc).1 = .ok t ∧
      (Calibrate s adc ref).2 =
        { s with config :=
            { s.config with calibration_offset := ref - t } } := by
  by_cases hi : s.initialized = false
  · simp [Calibrate, hi] at h
  · have hst := read_nofilter_state s adc hfil
    rcases hread : ReadTemperatureCelsius s adc with ⟨res, s'⟩
    have hs' : s' = s := by
      have := hst
      rw [hread] at this
      exact this
    cases res with
    | ok t =>
        refine ⟨t, rfl, ?_⟩
        simp [Calibrate, hi, hread, hs']
    | err e => simp [Calibrate, hi, hread] at h
    | oobRead => simp [Calibrate, hi, hread] at h
    | outOfFuel => simp [Calibrate, hi, hread] at h

/-- **C3 (counterexample).**  The claim asserts that with a deterministic
mock ADC, two successive `calibrate(25.0)` calls store the same offset.
They do not: `Calibrate` reads through the normal pipeline, which includes
the current offset, so the first call stores `25 − t` (t ≈ 8 °C here) and
the second stores `25 − (t + (25 − t)) = 0` — the initial offset again. -/
theorem claim_C3_counterexample :
    (Calibrate mockState mockAdc 25).1 = .ok () ∧
    (Calibrate (Calibrate mockState mockAdc 25).2 mockAdc 25).1 = .ok () ∧
    (Calibrate mockState mockAdc 25).2.config.calibration_offset ≠
      (Calibrate (Calibrate mockState mockAdc 25).2 mockAdc
        25).2.config.calibration_offset := by
  obtain ⟨h7, h9⟩ := mockRawTemp_bounds
  have hoff0 : mockState.config.calibration_offset = 0 := rfl
  have hraw0 : rawConversionResult mockState.config mockAdc
      = .ok mockRawTemp :=
    mock_pipeline_raw _ rfl rfl rfl rfl rfl rfl
  have hv0 : ValidateTemperature
      (mockRawTemp + mockState.config.calibration_offset)
      mockState.config.min_temperature mockState.config.max_temperature := by
    rw [hoff0]
    show (-40 : ℝ) ≤ mockRawTemp + 0 ∧ mockRawTemp + 0 ≤ 125
    constructor <;> linarith
  have hread0 := read_nofilter_eval mockState mockAdc mockRawTemp rfl rfl
    hraw0 hv0
  have hi0 : ¬ mockState.initialized = false := by
    simp [mockState]
  have hcal1 : Calibrate mockState mockAdc 25 =
      (.ok (), { mockState with config := { mockState.config with
        calibration_offset :=
          25 - (mockRawTemp + mockState.config.calibration_offset) } }) := by
    unfold Calibrate
    rw [if_neg hi0, hread0]
  set s1 : NtcThermistorState :=
    { mockState with config := { mockState.config with
        calibration_offset :=
          25 - (mockRawTemp + mockState.config.calibration_offset) } }
    with hs1
  have hraw1 : rawConversionResult s1.config mockAdc = .ok mockRawTemp :=
    mock_pipeline_raw _ rfl rfl rfl rfl rfl rfl
  have hoff1 : s1.config.calibration_offset
      = 25 - (mockRawTemp + mockState.config.calibration_offset) := rfl
  have hv1 : ValidateTemperature
      (mockRawTemp + s1.config.calibration_offset)
      s1.config.min_temperature s1.config.max_temperature := by
    rw [hoff1, hoff0]
    show (-40 : ℝ) ≤ mockRawTemp + (25 - (mockRawTemp + 0)) ∧
      mockRawTemp + (25 - (mockRawTemp + 0)) ≤ 125
    constructor <;> linarith
  have hread1 := read_nofilter_eval s1 mockAdc mockRawTemp rfl rfl hraw1 hv1
  have hi1 : ¬ s1.initialized = false := by
    simp [hs1, mockState]
  have hcal2 : Calibrate s1 mockAdc 25 =
      (.ok (), { s1 with config := { s1.config with
        calibration_offset :=
          25 - (mockRawTemp + s1.config.calibration_offset) } }) := by
    unfold Calibrate
    rw [if_neg hi1, hread1]
  rw [hcal1]
  refine ⟨rfl, ?_, ?_⟩
  · rw [show (DriverResult.ok (), s1).2 = s1 from rfl, hcal2]
  · rw [show (DriverResult.ok (), s1).2 = s1 from rfl, hcal2]
    show s1.config.calibration_offset ≠
      25 - (mockRawTemp + s1.config.calibration_offset)
    rw [hoff1, hoff0]
    intro heq
    linarith

/-- **C3 (amended).**  `Calibrate` reads the current temperature through the
normal pipeline (which already includes the stored offset) and sets the
offset to `reference − reading`.  Consequently two successive successful
`calibrate(ref)` calls with a deterministic ADC and filtering disabled do
**not** store the same offset in general: the second call restores the
initial offset. -/
theorem claim_C3_amended (s : NtcThermistorState) (adc : AdcReads) (ref : ℝ)
    (hfil : s.config.enable_filtering = false)
    (h1 : (Calibrate s adc ref).1 = .ok ())
    (h2 : (Calibrate (Calibrate s adc ref).2 adc ref).1 = .ok ()) :
    (∀ t, (ReadTemperatureCelsius s adc).1 = .ok t →
      (Calibrate s adc ref).2.config.calibration_offset = ref - t) ∧
    (Calibrate (Calibrate s adc ref).2 adc ref).2.config.calibration_offset
      = s.config.calibration_offset := by
  obtain ⟨t1, hr1, hs1⟩ := calibrate_ok_structure s adc ref hfil h1
  have hfil1 : (Calibrate s adc ref).2.config.enable_filtering = false := by
    rw [hs1]
    exact hfil
  obtain ⟨t2, hr2, hs2⟩ :=
    calibrate_ok_structure (Calibrate s adc ref).2 adc ref hfil1 h2
  obtain ⟨raw1, hraw1, ht1⟩ := read_nofilter_ok s adc t1 hfil hr1
  obtain ⟨raw2, hraw2, ht2⟩ :=
    read_nofilter_ok (Calibrate s adc ref).2 adc t2 hfil1 hr2
  have hcfg : rawConversionResult (Calibrate s adc ref).2.config adc
      = rawConversionResult s.config adc := by
    rw [hs1]
    exact rawConversionResult_offset s.config adc (ref - t1)
  have hraw12 : raw2 = raw1 := by
    rw [hcfg, hraw1] at hraw2
    cases hraw2
    rfl
  have hoff1 : (Calibrate s adc ref).2.config.calibration_offset
      = ref - t1 := by
    rw [hs1]
  constructor
  · intro t ht
    have htt : t = t1 := by
      rw [ht] at hr1
      cases hr1
      rfl
    rw [hs1, htt]
  · rw [hs2]
    show ref - t2 = s.config.calibration_offset
    rw [ht2, hraw12, hoff1, ht1]
    ring

/-- Witness for C3 (amended) at the mock driver: after two successful
`calibrate(25)` calls the stored offset is back to the initial one. -/
theorem claim_C3_amended_witness :
    (Calibrate (Calibrate mockState mockAdc 25).2 mockAdc
      25).2.config.calibration_offset
      = mockState.config.calibration_offset :=
  (claim_C3_amended mockState mockAdc 25 rfl
    claim_C3_counterexample.1 claim_C3_counterexample.2.1).2

/-- **C10.**  Frame effect of `ReadTemperatureCelsius` on the filter state:
a failure before the final range check (ADC read, resistance calculation,
or conversion — the `err` outcomes of the raw pipeline, as well as the
undefined-behaviour outcomes) leaves the whole driver state unchanged; but
with filtering enabled, a `TEMPERATURE_OUT_OF_RANGE` failure at the final
check has already seeded or smoothed the filter with the rejected value —
the error is not atomic with respect to the filter state. -/
theorem claim_C10_filter_frame (s : NtcThermistorState) (adc : AdcReads) :
    (s.initialized = true →
      (∀ e, rawConversionResult s.config adc = .err e →
        ReadTemperatureCelsius s adc = (.err e, s)) ∧
      (rawConversionResult s.config adc = .oobRead →
        ReadTemperatureCelsius s adc = (.oobRead, s)) ∧
      (rawConversionResult s.config adc = .outOfFuel →
        ReadTemperatureCelsius s adc = (.outOfFuel, s))) ∧
    (s.initialized = true → s.config.enable_filtering = true →
      ∀ raw, rawConversionResult s.config adc = .ok raw →
      ¬ ValidateTemperature
          (applyFiltering s (raw + s.config.calibration_offset)).1
          s.config.min_temperature s.config.max_temperature →
      ReadTemperatureCelsius s adc =
        (.err .NTC_ERR_TEMPERATURE_OUT_OF_RANGE,
          (applyFiltering s (raw + s.config.calibration_offset)).2) ∧
      (applyFiltering s
        (raw + s.config.calibration_offset)).2.filter_initialized = true ∧
      (s.filter_initialized = false →
        (applyFiltering s
          (raw + s.config.calibration_offset)).2.filtered_temperature
          = raw + s.config.calibration_offset) ∧
      (s.filter_initialized = true →
        (applyFiltering s
          (raw + s.config.calibration_offset)).2.filtered_temperature
          = s.config.filter_alpha * (raw + s.config.calibration_offset) +
            (1 - s.config.filter_alpha) * s.filtered_temperature)) := by
  constructor
  · intro hi
    refine ⟨fun e he => ?_, fun he => ?_, fun he => ?_⟩ <;>
      simp [ReadTemperatureCelsius, hi, he]
  · intro hi hfil raw hraw hv
    refine ⟨?_, ?_, fun hseed => ?_, fun hseed => ?_⟩
    · simp [ReadTemperatureCelsius, hi, hraw, hfil, hv]
    · by_cases hseed : s.filter_initialized = false <;>
        simp [applyFiltering, hfil, hseed]
    · simp [applyFiltering, hfil, hseed]
    · simp [applyFiltering, hfil, hseed]

/-- Witness for C10 at the filtering-enabled, `max_temperature = 0` driver:
the mock reading (≈ 8 °C) is rejected as out of range, yet the filter comes
back seeded with the rejected value. -/
theorem claim_C10_filter_frame_witness :
    ReadTemperatureCelsius outOfRangeState mockAdc =
      (.err .NTC_ERR_TEMPERATURE_OUT_OF_RANGE,
        (applyFiltering outOfRangeState
          (mockRawTemp + outOfRangeState.config.calibration_offset)).2) ∧
    (applyFiltering outOfRangeState
      (mockRawTemp +
        outOfRangeState.config.calibration_offset)).2.filter_initialized
      = true ∧
    (applyFiltering outOfRangeState
      (mockRawTemp +
        outOfRangeState.config.calibration_offset)).2.filtered_temperature
      = mockRawTemp + outOfRangeState.config.calibration_offset := by
  obtain ⟨h7, h9⟩ := mockRawTemp_bounds
  have hraw : rawConversionResult outOfRangeState.config mockAdc
      = .ok mockRawTemp :=
    mock_pipeline_raw _ rfl rfl rfl rfl rfl rfl
  have hv : ¬ ValidateTemperature
      (applyFiltering outOfRangeState
        (mockRawTemp + outOfRangeState.config.calibration_offset)).1
      outOfRangeState.config.min_temperature
      outOfRangeState.config.max_temperature := by
    have h1 : (applyFiltering outOfRangeState
        (mockRawTemp + outOfRangeState.config.calibration_offset)).1
        = mockRawTemp + outOfRangeState.config.calibration_offset := by
      simp [applyFiltering, outOfRangeState, mockState]
    rw [h1]
    rintro ⟨-, hle⟩
    have hoff : outOfRangeState.config.calibration_offset = 0 := rfl
    have hmax : outOfRangeState.config.max_temperature = 0 := rfl
    rw [hoff, hmax] at hle
    linarith
  have h := (claim_C10_filter_frame outOfRangeState mockAdc).2 rfl rfl
    mockRawTemp hraw hv
  exact ⟨h.1, h.2.1, h.2.2.1 rfl⟩

/-- Witness for C5 (amended): `SetFiltering` at α = ½ resets the filter, and
the filtering-enabled mock driver's first reading returns the raw value
`mockRawTemp` exactly while seeding the filter with it. -/
theorem claim_C5_amended_witness :
    (SetFiltering mockState true (1/2)).2.filter_initialized = false ∧
    ReadTemperatureCelsius
      { mockState with config :=
          { mockConfig with enable_filtering := true,
                            filter_alpha := 1/2 } } mockAdc =
      (.ok (mockRawTemp + 0),
        { mockState with
            config := { mockConfig with enable_filtering := true,
                                        filter_alpha := 1/2 },
            filtered_temperature := mockRawTemp + 0,
            filter_initialized := true }) := by
  obtain ⟨h7, h9⟩ := mockRawTemp_bounds
  constructor
  · exact ((claim_C5_amended mockState mockAdc mockConfig true (1/2)
      0).2.1 (by norm_num) (by norm_num)).1
  · have hraw : rawConversionResult
        ({ mockState with config :=
          { mockConfig with enable_filtering := true,
                            filter_alpha := 1/2 } } :
          NtcThermistorState).config mockAdc = .ok mockRawTemp :=
      mock_pipeline_raw _ rfl rfl rfl rfl rfl rfl
    have hv : ValidateTemperature (mockRawTemp + 0) (-40 : ℝ) 125 := by
      constructor <;> linarith
    exact (claim_C5_amended
      { mockState with config :=
          { mockConfig with enable_filtering := true,
                            filter_alpha := 1/2 } }
      mockAdc mockConfig true (1/2) mockRawTemp).2.2.1
      rfl rfl rfl hraw hv

/-- `exp 14` dominates the whole valid resistance range. -/
theorem exp_fourteen_ge : (1000000 : ℝ) ≤ Real.exp 14 := by
  have h1 : Real.exp 14 = Real.exp 1 ^ (14 : ℕ) := by
    rw [← Real.exp_nat_mul]
    norm_num
  have h2 : (2.7 : ℝ) ^ (14 : ℕ) ≤ Real.exp 1 ^ (14 : ℕ) := by
    apply pow_le_pow_left₀ (by norm_num)
    linarith [Real.exp_one_gt_d9]
  have h3 : (1000000 : ℝ) ≤ (2.7 : ℝ) ^ (14 : ℕ) := by norm_num
  linarith

/-- On the valid resistance range `[0.1, 1e6]`, `|ln R| ≤ 14`. -/
theorem abs_log_le_fourteen (r : ℝ) (h1 : (0.1 : ℝ) ≤ r)
    (h2 : r ≤ 1000000) : |Real.log r| ≤ 14 := by
  have hrpos : (0 : ℝ) < r := lt_of_lt_of_le (by norm_num) h1
  rw [abs_le]
  constructor
  · have hexp : Real.exp (-14) ≤ r := by
      have h10 : (10 : ℝ) ≤ Real.exp 14 := le_trans (by norm_num)
        exp_fourteen_ge
      have : Real.exp (-14) ≤ 0.1 := by
        rw [Real.exp_neg]
        have := inv_anti₀ (by norm_num : (0:ℝ) < 10) h10
        calc (Real.exp 14)⁻¹ ≤ (10 : ℝ)⁻¹ := this
          _ = 0.1 := by norm_num
      linarith
    exact (Real.le_log_iff_exp_le hrpos).mpr hexp
  · exact (Real.log_le_iff_le_exp hrpos).mpr
      (le_trans h2 exp_fourteen_ge)

/-- Strict monotonicity of the Steinhart-Hart polynomial `A + Bx + Cx³` on
`|x| ≤ 14` for coefficients inside the validation bounds: the cubic term
cannot overcome `B ≥ 1e-4` there. -/
theorem sh_inv_strict_mono (a b c x1 x2 : ℝ)
    (hsh : ValidateSteinhartHartCoefficients a b c)
    (hx1 : |x1| ≤ 14) (hx2 : |x2| ≤ 14) (h12 : x1 < x2) :
    a + b * x1 + c * (x1 * x1 * x1) < a + b * x2 + c * (x2 * x2 * x2) := by
  obtain ⟨ha1, ha2, hb1, hb2, hc1, hc2⟩ := hsh
  obtain ⟨hx1l, hx1r⟩ := abs_le.mp hx1
  obtain ⟨hx2l, hx2r⟩ := abs_le.mp hx2
  have hs0 : 0 ≤ x1 * x1 + x1 * x2 + x2 * x2 := by
    nlinarith [sq_nonneg (x1 + x2), sq_nonneg x1, sq_nonneg x2]
  have hsle : x1 * x1 + x1 * x2 + x2 * x2 ≤ 588 := by
    nlinarith [sq_nonneg (x1 - x2),
      mul_nonneg (by linarith : (0:ℝ) ≤ 14 - x1)
        (by linarith : (0:ℝ) ≤ 14 + x1),
      mul_nonneg (by linarith : (0:ℝ) ≤ 14 - x2)
        (by linarith : (0:ℝ) ≤ 14 + x2)]
  have hkey : 0 < b + c * (x1 * x1 + x1 * x2 + x2 * x2) := by
    nlinarith [mul_nonneg (by linarith : (0:ℝ) ≤ c + 1/10000000) hs0]
  nlinarith [mul_pos (sub_pos.mpr h12) hkey]

/-- **C8.**  NTC monotonicity: wherever both forward conversions succeed on
a pair of resistances `r1 < r2` (with shared parameters), the larger
resistance yields the strictly smaller temperature — for the Beta equation
and for the Steinhart-Hart equation with coefficients inside the validation
bounds. -/
theorem claim_C8_monotonicity (r0 β a b c r1 r2 t1 t2 u1 u2 : ℝ)
    (h12 : r1 < r2) :
    (ConvertResistanceToTemperatureBeta r1 r0 β = some t1 →
      ConvertResistanceToTemperatureBeta r2 r0 β = some t2 → t2 < t1) ∧
    (ConvertResistanceToTemperatureSteinhartHart r1 a b c = some u1 →
      ConvertResistanceToTemperatureSteinhartHart r2 a b c = some u2 →
      u2 < u1) := by
  constructor
  · intro h1 h2
    obtain ⟨⟨hr1l, hr1u⟩, ⟨hβl, -⟩, hr0, hp1, ht1⟩ :=
      (beta_eq_some_iff r1 r0 β t1).mp h1
    obtain ⟨⟨hr2l, -⟩, -, -, hp2, ht2⟩ :=
      (beta_eq_some_iff r2 r0 β t2).mp h2
    have hβ0 : (0 : ℝ) < β := by linarith
    have hr1p : (0 : ℝ) < r1 := by linarith
    have hlog : Real.log (r1 / r0) < Real.log (r2 / r0) :=
      Real.log_lt_log (div_pos hr1p hr0) ((div_lt_div_iff_of_pos_right hr0).mpr h12)
    have hinv : 1 / 298.15 + Real.log (r1 / r0) / β <
        1 / 298.15 + Real.log (r2 / r0) / β := by
      have := (div_lt_div_iff_of_pos_right hβ0).mpr hlog
      linarith
    have := one_div_lt_one_div_of_lt hp1 hinv
    rw [ht1, ht2]
    linarith
  · intro h1 h2
    obtain ⟨⟨hr1l, hr1u⟩, hsh, hp1, hu1⟩ :=
      (sh_eq_some_iff r1 a b c u1).mp h1
    obtain ⟨⟨hr2l, hr2u⟩, -, hp2, hu2⟩ :=
      (sh_eq_some_iff r2 a b c u2).mp h2
    have hr1p : (0 : ℝ) < r1 := by linarith
    have hlog : Real.log r1 < Real.log r2 := Real.log_lt_log hr1p h12
    have hinv := sh_inv_strict_mono a b c (Real.log r1) (Real.log r2) hsh
      (abs_log_le_fourteen r1 hr1l hr1u)
      (abs_log_le_fourteen r2 hr2l hr2u) hlog
    have := one_div_lt_one_div_of_lt hp1 hinv
    rw [hu1, hu2]
    linarith

/-- Witness for C8 at `r1 = 1 Ω, r2 = 10 Ω`: the Beta conversion
(`R₀ = 1, β = 3435`) gives exactly 25 °C at `R = R₀ = 1` and a strictly
smaller value at 10 Ω; Steinhart-Hart with `A = B = 1e-3, C = 0` likewise
decreases. -/
theorem claim_C8_monotonicity_witness :
    ConvertResistanceToTemperatureBeta 1 1 3435 = some 25 ∧
    ConvertResistanceToTemperatureBeta 10 1 3435 =
      some (1 / (1 / 298.15 + Real.log 10 / 3435) - 273.15) ∧
    1 / (1 / 298.15 + Real.log 10 / 3435) - 273.15 < 25 ∧
    ConvertResistanceToTemperatureSteinhartHart 1 (1/1000) (1/1000) 0 =
      some (1 / (1/1000) - 273.15) ∧
    ConvertResistanceToTemperatureSteinhartHart 10 (1/1000) (1/1000) 0 =
      some (1 / (1/1000 + 1/1000 * Real.log 10) - 273.15) ∧
    1 / (1/1000 + 1/1000 * Real.log 10) - 273.15
      < 1 / (1/1000) - 273.15 := by
  have hlog10 : (0 : ℝ) < Real.log 10 := Real.log_pos (by norm_num)
  have hb1 : ConvertResistanceToTemperatureBeta 1 1 3435 = some 25 := by
    rw [beta_eq_some_iff]
    norm_num
  have hb2 : ConvertResistanceToTemperatureBeta 10 1 3435 =
      some (1 / (1 / 298.15 + Real.log 10 / 3435) - 273.15) := by
    rw [beta_eq_some_iff]
    norm_num
    linarith
  have hs1 : ConvertResistanceToTemperatureSteinhartHart 1 (1/1000)
      (1/1000) 0 = some (1 / (1/1000) - 273.15) := by
    rw [sh_eq_some_iff]
    norm_num [ValidateSteinhartHartCoefficients]
  have hs2 : ConvertResistanceToTemperatureSteinhartHart 10 (1/1000)
      (1/1000) 0 = some (1 / (1/1000 + 1/1000 * Real.log 10) - 273.15) := by
    rw [sh_eq_some_iff]
    norm_num [ValidateSteinhartHartCoefficients]
    linarith
  refine ⟨hb1, hb2, ?_, hs1, hs2, ?_⟩
  · exact (claim_C8_monotonicity 1 3435 (1/1000) (1/1000) 0 1 10 25
      (1 / (1 / 298.15 + Real.log 10 / 3435) - 273.15)
      (1 / (1/1000) - 273.15)
      (1 / (1/1000 + 1/1000 * Real.log 10) - 273.15)
      (by norm_num)).1 hb1 hb2
  · exact (claim_C8_monotonicity 1 3435 (1/1000) (1/1000) 0 1 10 25
      (1 / (1 / 298.15 + Real.log 10 / 3435) - 273.15)
      (1 / (1/1000) - 273.15)
      (1 / (1/1000 + 1/1000 * Real.log 10) - 273.15)
      (by norm_num)).2 hs1 hs2

end NTC
